import Mathlib

/-!
Verification of the python-playground teaching scripts.

This file gives a shallow embedding, in Lean, of the parts of the repository
that the specification's claims are about: the four `BankAccount` classes
(`practice/practice_questions.py`, `intermediate/10_pep8_code_style.py`,
`intermediate/11_oop_fundamentals.py`, `advanced/12_oop_principles.py`), the
`filter_error_logs` function, the
scratch-file lifecycle of the file-creating scripts, the sample package's
`Calculator` and `greet`, the exception-handling demonstrations, the
asynchronous-I/O script's simulated delays, the packaging script's
environment-dependent output, and the Fibonacci generator.

Python numbers (ints and floats used as currency amounts) are modelled as
rationals; exceptions are modelled by an explicit `CallResult` type; files are
modelled as association lists from names to line lists.
-/

/-- Result of calling a Python method: either a normal `return` of a value, or
a raised exception carrying its message string. -/
inductive CallResult (α : Type) where
  | returns (val : α)
  | raises (msg : String)
  deriving DecidableEq, Repr

/-- True exactly when the call raised an exception. -/
def CallResult.isRaises {α : Type} : CallResult α → Bool
  | .returns _ => false
  | .raises _ => true

/-- An entry of a `transaction_history` list.  The scripts append f-strings
such as `f"Deposit: +${amount}"`; the string rendering carries no information
beyond the tag and the amount, so entries are modelled as tagged amounts. -/
inductive Txn where
  | initialDeposit (amount : ℚ)
  | deposit (amount : ℚ)
  | withdrawal (amount : ℚ)
  deriving DecidableEq, Repr

/-- The `BankAccount` of `src/practice/practice_questions.py` (lines 110-145):
fields set by `__init__(account_holder, balance=0.0)`. -/
structure PracticeAccount where
  account_holder : String
  balance : ℚ
  transaction_history : List Txn
  deriving DecidableEq, Repr

/-- `BankAccount.deposit` of `practice_questions.py` (lines 118-125): raises
`ValueError("Deposit amount must be positive")` when `amount <= 0`, otherwise
adds the amount to the balance, appends a history entry and returns the new
balance. -/
def PracticeAccount.deposit (acc : PracticeAccount) (amount : ℚ) :
    CallResult ℚ × PracticeAccount :=
  if amount ≤ 0 then
    (.raises "Deposit amount must be positive", acc)
  else
    let acc' : PracticeAccount :=
      { acc with
        balance := acc.balance + amount
        transaction_history := acc.transaction_history ++ [Txn.deposit amount] }
    (.returns acc'.balance, acc')

/-- `BankAccount.withdraw` of `practice_questions.py` (lines 127-137): raises
`ValueError` when `amount <= 0` or when `amount > self.balance`, otherwise
subtracts and returns the new balance. -/
def PracticeAccount.withdraw (acc : PracticeAccount) (amount : ℚ) :
    CallResult ℚ × PracticeAccount :=
  if amount ≤ 0 then
    (.raises "Withdrawal amount must be positive", acc)
  else if amount > acc.balance then
    (.raises "Insufficient funds", acc)
  else
    let acc' : PracticeAccount :=
      { acc with
        balance := acc.balance - amount
        transaction_history := acc.transaction_history ++ [Txn.withdrawal amount] }
    (.returns acc'.balance, acc')

/-- Return messages of the `BankAccount` in
`src/intermediate/11_oop_fundamentals.py`: the methods signal rejection by
returning a message string instead of raising; success messages carry the
amount and the new balance. -/
inductive OopMsg where
  | depositRejectedNonPositive
  | withdrawRejectedNonPositive
  | insufficientFunds
  | deposited (amount newBalance : ℚ)
  | withdrew (amount newBalance : ℚ)
  deriving DecidableEq, Repr

/-- The practical `BankAccount` of `src/intermediate/11_oop_fundamentals.py`
(lines 139-196).  The class variable `total_accounts` and the derived
`account_number` string are set at `__init__` time and never consulted by
`deposit`/`withdraw`; they are carried as plain fields. -/
structure OopAccount where
  account_holder : String
  balance : ℚ
  transaction_history : List Txn
  account_number : String
  deriving DecidableEq, Repr

/-- `BankAccount.deposit` of `11_oop_fundamentals.py` (lines 160-167): returns
the string "Deposit amount must be positive" when `amount <= 0` (no exception,
state untouched), otherwise updates balance and history and returns a success
message. -/
def OopAccount.deposit (acc : OopAccount) (amount : ℚ) : OopMsg × OopAccount :=
  if amount ≤ 0 then
    (.depositRejectedNonPositive, acc)
  else
    (.deposited amount (acc.balance + amount),
      { acc with
        balance := acc.balance + amount
        transaction_history := acc.transaction_history ++ [Txn.deposit amount] })

/-- `BankAccount.withdraw` of `11_oop_fundamentals.py` (lines 169-179): returns
rejection strings for non-positive amounts and for `amount > self.balance`
(no exception, state untouched), otherwise updates and returns a success
message. -/
def OopAccount.withdraw (acc : OopAccount) (amount : ℚ) : OopMsg × OopAccount :=
  if amount ≤ 0 then
    (.withdrawRejectedNonPositive, acc)
  else if amount > acc.balance then
    (.insufficientFunds, acc)
  else
    (.withdrew amount (acc.balance - amount),
      { acc with
        balance := acc.balance - amount
        transaction_history := acc.transaction_history ++ [Txn.withdrawal amount] })

/-- Return messages of the encapsulation `BankAccount` in
`src/advanced/12_oop_principles.py`. -/
inductive EncapMsg where
  | invalidPin
  | withdrawRejectedNonPositive
  | insufficientFunds
  | deposited (amount newBalance : ℚ)
  | withdrew (amount newBalance : ℚ)
  deriving DecidableEq, Repr

/-- The encapsulation `BankAccount` of `src/advanced/12_oop_principles.py`
(lines 84-132): `_balance`, the private `__pin` (initialised to "1234") and
the private `__transaction_count`. -/
structure EncapAccount where
  account_number : String
  balance : ℚ
  pin : String
  transaction_count : Nat
  deriving DecidableEq, Repr

/-- `BankAccount.__init__` of `12_oop_principles.py` (lines 87-91): the PIN is
always initialised to "1234" and the transaction count to 0. -/
def EncapAccount.init (account_number : String) (initial_balance : ℚ) :
    EncapAccount :=
  { account_number := account_number
    balance := initial_balance
    pin := "1234"
    transaction_count := 0 }

/-- `BankAccount.deposit` of `12_oop_principles.py` (lines 98-105): raises
`ValueError` when `amount <= 0`, otherwise updates `_balance` and the
transaction count and returns a success message. -/
def EncapAccount.deposit (acc : EncapAccount) (amount : ℚ) :
    CallResult EncapMsg × EncapAccount :=
  if amount ≤ 0 then
    (.raises "Deposit amount must be positive", acc)
  else
    (.returns (.deposited amount (acc.balance + amount)),
      { acc with
        balance := acc.balance + amount
        transaction_count := acc.transaction_count + 1 })

/-- `BankAccount.withdraw` of `12_oop_principles.py` (lines 107-120): checks
the PIN first and returns the string "Invalid PIN" on mismatch; all
rejections are normal returns of message strings, never exceptions. -/
def EncapAccount.withdraw (acc : EncapAccount) (amount : ℚ) (pin : String) :
    CallResult EncapMsg × EncapAccount :=
  if pin ≠ acc.pin then
    (.returns .invalidPin, acc)
  else if amount ≤ 0 then
    (.returns .withdrawRejectedNonPositive, acc)
  else if amount > acc.balance then
    (.returns .insufficientFunds, acc)
  else
    (.returns (.withdrew amount (acc.balance - amount)),
      { acc with
        balance := acc.balance - amount
        transaction_count := acc.transaction_count + 1 })

/-- The PEP-8 example `BankAccount` of
`src/intermediate/10_pep8_code_style.py` (lines 232-263): fields set by
`__init__(account_number, initial_balance=0.0)`. -/
structure Pep8Account where
  account_number : String
  balance : ℚ
  transaction_history : List Txn
  deriving DecidableEq, Repr

/-- `BankAccount.deposit` of `10_pep8_code_style.py` (lines 241-248): raises
`ValueError("Deposit amount must be positive")` when `amount <= 0`, otherwise
adds the amount, appends a history entry and returns the new balance. -/
def Pep8Account.deposit (acc : Pep8Account) (amount : ℚ) :
    CallResult ℚ × Pep8Account :=
  if amount ≤ 0 then
    (.raises "Deposit amount must be positive", acc)
  else
    let acc' : Pep8Account :=
      { acc with
        balance := acc.balance + amount
        transaction_history := acc.transaction_history ++ [Txn.deposit amount] }
    (.returns acc'.balance, acc')

/-- `BankAccount.withdraw` of `10_pep8_code_style.py` (lines 250-259): raises
`ValueError` when `amount <= 0` or when `amount > self.balance`, otherwise
subtracts and returns the new balance. -/
def Pep8Account.withdraw (acc : Pep8Account) (amount : ℚ) :
    CallResult ℚ × Pep8Account :=
  if amount ≤ 0 then
    (.raises "Withdrawal amount must be positive", acc)
  else if amount > acc.balance then
    (.raises "Insufficient funds", acc)
  else
    let acc' : Pep8Account :=
      { acc with
        balance := acc.balance - amount
        transaction_history := acc.transaction_history ++ [Txn.withdrawal amount] }
    (.returns acc'.balance, acc')

/-- A call of one of the two mutating methods of a bank account, as issued by
client code: the argument of `deposit` or `withdraw`. -/
inductive AccountOp where
  | deposit (amount : ℚ)
  | withdraw (amount : ℚ)
  deriving DecidableEq, Repr

/-- State effect of one method call on the practice-script account (the raised
exception, if any, propagates to the caller; the object keeps the state the
method left behind, which on every rejection path is the original state). -/
def PracticeAccount.applyOp (acc : PracticeAccount) (op : AccountOp) :
    PracticeAccount :=
  match op with
  | .deposit q => (acc.deposit q).2
  | .withdraw q => (acc.withdraw q).2

/-- State reached by the practice-script account after a sequence of `deposit`
and `withdraw` calls. -/
def PracticeAccount.runOps (acc : PracticeAccount) (ops : List AccountOp) :
    PracticeAccount :=
  ops.foldl PracticeAccount.applyOp acc

/-- State effect of one method call on the OOP-fundamentals account. -/
def OopAccount.applyOp (acc : OopAccount) (op : AccountOp) : OopAccount :=
  match op with
  | .deposit q => (acc.deposit q).2
  | .withdraw q => (acc.withdraw q).2

/-- State reached by the OOP-fundamentals account after a sequence of calls. -/
def OopAccount.runOps (acc : OopAccount) (ops : List AccountOp) : OopAccount :=
  ops.foldl OopAccount.applyOp acc

/-- The account built at `practice_questions.py` line 148:
`BankAccount("Alice Johnson", 1000.0)`. -/
def practiceDemoAccount : PracticeAccount :=
  { account_holder := "Alice Johnson", balance := 1000, transaction_history := [] }

/-- The account built at `11_oop_fundamentals.py` line 213:
`BankAccount("Bob Smith", 500)` (it is the second account created, so its
generated number is "ACC0002"). -/
def oopDemoAccount : OopAccount :=
  { account_holder := "Bob Smith", balance := 500
    transaction_history := [Txn.initialDeposit 500], account_number := "ACC0002" }

/-- The account built at `10_pep8_code_style.py` line 266:
`BankAccount("12345", 1000.0)`. -/
def pep8DemoAccount : Pep8Account :=
  { account_number := "12345", balance := 1000, transaction_history := [] }

/-- The account built at `12_oop_principles.py` line 135:
`BankAccount("12345", 1000)`. -/
def encapDemoAccount : EncapAccount := EncapAccount.init "12345" 1000

/-- A file-system operation performed by one of the scripts, abstracted to its
effect on which paths exist. -/
inductive FsOp where
  | create (path : String)
  | remove (path : String)
  | removeTree (dir : String)
  deriving DecidableEq, Repr

/-- Effect of one operation on the list of existing paths.  `create` covers
`open(_, "w")`, `open(_, "a")` and `os.makedirs` (existence-wise each ensures
the path exists); `remove` is `os.remove` inside the scripts' try/except
blocks (a missing file is a no-op); `removeTree` is `shutil.rmtree`, removing
the directory and every path below it. -/
def applyFsOp (fs : List String) (op : FsOp) : List String :=
  match op with
  | .create p => if p ∈ fs then fs else fs ++ [p]
  | .remove p => fs.filter (fun q => q != p)
  | .removeTree d =>
      fs.filter (fun q => !(q == d || (d ++ "/").data.isPrefixOf q.data))

/-- Paths existing after a script's file operations run in order. -/
def runFsOps (ops : List FsOp) (fs : List String) : List String :=
  ops.foldl applyFsOp fs

/-- File operations of `src/basic/08_file_io.py`, in source order: sample.txt
(line 26), fruits.txt written (line 62) then appended (line 67), readonly.txt
(line 126 — the `open("readonly.txt", "w")` of the PermissionError
demonstration succeeds in a writable working directory, so the file is
created), students.csv (line 141), sample_copy.txt (line 200), then the
cleanup removals of lines 204-210, whose list names only four files. -/
def fileIoScriptOps : List FsOp :=
  [.create "sample.txt",
   .create "fruits.txt",
   .create "fruits.txt",
   .create "readonly.txt",
   .create "students.csv",
   .create "sample_copy.txt",
   .remove "sample.txt",
   .remove "fruits.txt",
   .remove "students.csv",
   .remove "sample_copy.txt"]

/-- File operations of `src/intermediate/09_packaging_venv.py`, in source
order: requirements.txt (line 121), the sample package directory (line 149)
and its three modules (lines 166, 196, 213), the `__pycache__` byte-code files
produced by the `import` at line 224, then the cleanup of lines 321-322
(`os.remove` plus `shutil.rmtree`). -/
def packagingScriptOps : List FsOp :=
  [.create "requirements.txt",
   .create "my_sample_package",
   .create "my_sample_package/__init__.py",
   .create "my_sample_package/calculator.py",
   .create "my_sample_package/utils.py",
   .create "my_sample_package/__pycache__",
   .create "my_sample_package/__pycache__/__init__.pyc",
   .create "my_sample_package/__pycache__/calculator.pyc",
   .create "my_sample_package/__pycache__/utils.pyc",
   .remove "requirements.txt",
   .removeTree "my_sample_package"]

/-- File operations of `src/practice/practice_questions.py`: log.txt
(line 77), errors.log (line 84, written by `filter_error_logs`), and the
cleanup removals of lines 418-419. -/
def practiceScriptOps : List FsOp :=
  [.create "log.txt",
   .create "errors.log",
   .remove "log.txt",
   .remove "errors.log"]

/-- File operations of `src/advanced/16_async_io.py`: async_test.txt created
by the async context-manager demo (line 118) and removed by the cleanup at
line 403. -/
def asyncIoScriptOps : List FsOp :=
  [.create "async_test.txt",
   .remove "async_test.txt"]

/-- A file system for `filter_error_logs`: names mapped to lists of lines. -/
abbrev FileSys := List (String × List String)

/-- Writing a file: `open(name, "w")` replaces any previous content; the new
binding shadows older ones for `List.lookup`. -/
def FileSys.writeFile (fs : FileSys) (name : String) (lines : List String) :
    FileSys :=
  (name, lines) :: fs

/-- Does `pat` occur as a contiguous run inside the character list?  Used to
model Python's substring test `"ERROR" in line`. -/
def charsContain (pat : List Char) : List Char → Bool
  | [] => pat.isPrefixOf []
  | c :: rest => pat.isPrefixOf (c :: rest) || charsContain pat rest

/-- Python's `"ERROR" in line`. -/
def containsERROR (line : String) : Bool :=
  charsContain "ERROR".data line.data

/-- Everything observable about one call of `filter_error_logs`: the returned
value (or exception), the file system afterwards, and what was printed. -/
structure FilterResult where
  result : CallResult Nat
  fs : FileSys
  printed : List String
  deriving DecidableEq, Repr

/-- `filter_error_logs` of `practice_questions.py` (lines 81-93): opens the
input for reading (raising `FileNotFoundError` if absent — caught, a message
printed, 0 returned, and since the input is opened first the output file is
never created in that case) and the output for writing, copies every line
containing "ERROR" and returns their count. -/
def filter_error_logs (input_file output_file : String) (fs : FileSys) :
    FilterResult :=
  match fs.lookup input_file with
  | none => ⟨.returns 0, fs, ["File " ++ input_file ++ " not found"]⟩
  | some lines =>
      let error_lines := lines.filter containsERROR
      ⟨.returns error_lines.length, fs.writeFile output_file error_lines, []⟩

/-- The sample log content written at `practice_questions.py` lines 68-78. -/
def sampleLogLines : List String :=
  ["2024-01-01 10:00:00 INFO Application started",
   "2024-01-01 10:05:00 ERROR Database connection failed",
   "2024-01-01 10:06:00 INFO Retrying database connection",
   "2024-01-01 10:07:00 ERROR Authentication failed for user john",
   "2024-01-01 10:10:00 INFO User logged in successfully",
   "2024-01-01 10:15:00 ERROR File not found: config.xml",
   "2024-01-01 10:20:00 INFO Processing completed"]

/-- The file system right before the call at `practice_questions.py` line 96. -/
def sampleFileSys : FileSys := [("log.txt", sampleLogLines)]

/-- `Calculator.add` from the `calculator_content` source written to
`my_sample_package/calculator.py` by `09_packaging_venv.py` (lines 170-194). -/
def Calculator.add (a b : ℚ) : ℚ := a + b

/-- `Calculator.subtract` from the sample package source. -/
def Calculator.subtract (a b : ℚ) : ℚ := a - b

/-- `Calculator.multiply` from the sample package source. -/
def Calculator.multiply (a b : ℚ) : ℚ := a * b

/-- `Calculator.divide` from the sample package source: raises
`ValueError("Cannot divide by zero")` when `b == 0`, else returns `a / b`. -/
def Calculator.divide (a b : ℚ) : CallResult ℚ :=
  if b = 0 then .raises "Cannot divide by zero" else .returns (a / b)

/-- `greet` from the `utils_content` source written to
`my_sample_package/utils.py` by `09_packaging_venv.py` (lines 200-211):
`def greet(name="World"): return f"Hello, {name}!"`.  A call without an
argument is modelled as `none`. -/
def greet (name : Option String) : String :=
  "Hello, " ++ name.getD "World" ++ "!"

/-- One `try`/`except` site in the repository: the script and line of the
`except` clause, the exception class it catches ("bare" for a bare
`except:`), and whether the guarded block performs a division by zero.  The
enumeration covers every `except` clause under `src/` (scripts 08, 09, 12,
13, 14, 16 and the practice file; the remaining scripts contain none). -/
structure ExcSite where
  script : String
  line : Nat
  catches : String
  divByZeroInBody : Bool
  deriving DecidableEq, Repr

/-- Every `except` clause in the repository, from the source. -/
def exceptionSites : List ExcSite :=
  [⟨"basic/08_file_io.py", 121, "FileNotFoundError", false⟩,
   ⟨"basic/08_file_io.py", 128, "PermissionError", false⟩,
   ⟨"basic/08_file_io.py", 174, "FileNotFoundError", false⟩,
   ⟨"basic/08_file_io.py", 186, "FileNotFoundError", false⟩,
   ⟨"basic/08_file_io.py", 197, "FileNotFoundError", false⟩,
   ⟨"basic/08_file_io.py", 209, "FileNotFoundError", false⟩,
   ⟨"intermediate/09_packaging_venv.py", 89, "Exception", false⟩,
   ⟨"intermediate/09_packaging_venv.py", 234, "ImportError", false⟩,
   ⟨"intermediate/09_packaging_venv.py", 324, "bare", false⟩,
   ⟨"advanced/12_oop_principles.py", 150, "AttributeError", false⟩,
   ⟨"advanced/13_magic_methods.py", 419, "bare", false⟩,
   ⟨"advanced/14_generators_iteration.py", 97, "FileNotFoundError", false⟩,
   ⟨"advanced/14_generators_iteration.py", 164, "StopIteration", false⟩,
   ⟨"advanced/14_generators_iteration.py", 365, "bare", false⟩,
   ⟨"advanced/16_async_io.py", 180, "ValueError", false⟩,
   ⟨"advanced/16_async_io.py", 320, "CancelledError", false⟩,
   ⟨"advanced/16_async_io.py", 335, "TimeoutError", false⟩,
   ⟨"advanced/16_async_io.py", 345, "CancelledError", false⟩,
   ⟨"advanced/16_async_io.py", 404, "bare", false⟩,
   ⟨"practice/practice_questions.py", 91, "FileNotFoundError", false⟩,
   ⟨"practice/practice_questions.py", 421, "bare", false⟩]

/-- The sample-package members the packaging script actually calls in its
demo (`09_packaging_venv.py` lines 223-232): `divide` is never called. -/
def packagingDemoCalls : List String :=
  ["Calculator.add", "Calculator.subtract", "greet"]

/-- A simulated delay duration in the async-I/O script: a fixed number of
seconds, or a duration drawn by `random.uniform(lo, hi)`. -/
inductive DelaySpec where
  | fixed (seconds : ℚ)
  | uniformRandom (lo hi : ℚ)
  deriving DecidableEq, Repr

/-- Is the delay a fixed duration? -/
def DelaySpec.isFixed : DelaySpec → Bool
  | .fixed _ => true
  | .uniformRandom _ _ => false

/-- One sleep call in `16_async_io.py`, with its duration as determined at
its call site. -/
structure SleepSite where
  loc : String
  delay : DelaySpec
  deriving DecidableEq, Repr

/-- Every simulated delay of `src/advanced/16_async_io.py`, in source order,
with durations taken from the call sites. -/
def asyncIoSleepSites : List SleepSite :=
  [⟨"hello_async (line 24)", .fixed 1⟩,
   ⟨"sync_task A/B/C (line 39, duration 1)", .fixed 1⟩,
   ⟨"async_task A (line 46, duration 1)", .fixed 1⟩,
   ⟨"async_task B (line 46, duration 1)", .fixed 1⟩,
   ⟨"async_task C (line 46, duration 1)", .fixed 1⟩,
   ⟨"countdown (line 86)", .fixed (1/2)⟩,
   ⟨"AsyncFileManager.__aenter__ (line 117)", .fixed (1/10)⟩,
   ⟨"AsyncFileManager.__aexit__ (line 126)", .fixed (1/10)⟩,
   ⟨"async_context_demo (line 132)", .fixed (1/2)⟩,
   ⟨"async_number_generator (line 143)", .fixed (1/5)⟩,
   ⟨"risky_task (line 159)", .uniformRandom (1/2) (3/2)⟩,
   ⟨"fetch_url via web_scraping_demo (lines 206 and 232)",
     .uniformRandom (1/2) 2⟩,
   ⟨"producer (line 268)", .fixed (1/10)⟩,
   ⟨"consumer (line 281)", .fixed (1/5)⟩,
   ⟨"long_running_task Task1 (line 317, duration 3)", .fixed 3⟩,
   ⟨"long_running_task Task2 (line 317, duration 5)", .fixed 5⟩,
   ⟨"timeout_demo (line 340)", .fixed 1⟩,
   ⟨"exam_example (line 392)", .fixed 1⟩]

/-- A task passed to `asyncio.gather`: its result value and how long it runs
before completing. -/
structure MockTask (α : Type) where
  value : α
  duration : ℚ
  deriving DecidableEq, Repr

/-- Model of `asyncio.gather(t1, ..., tn)`, reflecting the documented asyncio
semantics the script relies on: whatever the completion times, the result list
follows the argument order — in the script, task-creation order. -/
def gatherResults {α : Type} (tasks : List (MockTask α)) : List α :=
  tasks.map MockTask.value

/-- The three tasks created in `run_async_tasks` (`16_async_io.py` lines
66-68), in creation order, each returning the string built at line 48. -/
def runAsyncTasksTasks : List (MockTask String) :=
  [⟨"Async A done", 1⟩, ⟨"Async B done", 1⟩, ⟨"Async C done", 1⟩]

/-- The parts of the interpreter environment that `09_packaging_venv.py`
observes: `sys.executable` (line 43), `sys.path[0]` (line 44), whether the
interpreter runs in a virtual environment (lines 37-42), and the standard
output of the `pip freeze` subprocess (lines 77-90). -/
structure PyEnv where
  executable : String
  sysPath0 : String
  inVenv : Bool
  pipFreezeStdout : String
  deriving DecidableEq, Repr

/-- Python's `s.split('\n')` on the character list (`split` keeps empty
pieces, and the split of the empty string is `[""]`). -/
def splitCharsOnNewline : List Char → List (List Char)
  | [] => [[]]
  | c :: rest =>
      let r := splitCharsOnNewline rest
      if c = '\n' then [] :: r
      else
        match r with
        | [] => [[c]]
        | h :: t => (c :: h) :: t

/-- Python's `stdout.split('\n')`. -/
def splitLines (s : String) : List String :=
  (splitCharsOnNewline s.data).map (fun cs => String.mk cs)

/-- Python's truthiness test `if line.strip():`. -/
def stripNonEmpty (s : String) : Bool :=
  !(((s.data.dropWhile Char.isWhitespace).reverse.dropWhile
      Char.isWhitespace).isEmpty)

/-- The lines printed by the `pip freeze` demonstration
(`09_packaging_venv.py` lines 80-88) as a function of the subprocess's
standard output: the first 10 lines, blanks skipped, two spaces of indent,
an "and more" marker when there were more than 10, and a fallback line when
the output was empty. -/
def pipFreezeReport (stdout : String) : List String :=
  if stdout = "" then
    ["  No packages installed or pip not available"]
  else
    (((splitLines stdout).take 10).filter stripNonEmpty).map
      (fun l => "  " ++ l)
    ++ (if (splitLines stdout).length > 10 then ["  ... (and more)"] else [])

/-- The environment-dependent lines of the packaging script's output
(lines 42-44 and 80-90), as a function of the command line and the
environment.  The script never reads `sys.argv`, so `argv` is unused — which
is exactly the argv half of the claim. -/
def packagingEnvOutput (argv : List String) (env : PyEnv) : List String :=
  ["Currently in virtual environment: "
      ++ (if env.inVenv then "True" else "False"),
   "Python executable: " ++ env.executable,
   "Python path: " ++ env.sysPath0,
   "Currently installed packages:"] ++ pipFreezeReport env.pipFreezeStdout

/-- A source of data outside the program text that a script can read. -/
inductive ExternalInput where
  | commandLineArgs
  | pythonEnvironment
  | randomness
  | clock
  | workingDirectory
  deriving DecidableEq, Repr

/-- One script together with everything it reads from outside its own text. -/
structure ScriptInputProfile where
  script : String
  reads : List ExternalInput
  deriving DecidableEq, Repr

/-- The external reads of each of the 18 scripts, from the source:
`07_strings_formatting.py` reads the clock (`datetime.now()`, line 120);
`08_file_io.py`, `13_magic_methods.py` and `14_generators_iteration.py` read
back files they write in the working directory (14 also prints
`sys.getsizeof` values, an interpreter detail); `09_packaging_venv.py` reads
the interpreter environment (`sys.executable`, `sys.path[0]`, virtual-env
status, the `pip freeze` subprocess) and the working directory;
`16_async_io.py` and the practice file use `random`, the clock and scratch
files.  No script mentions `sys.argv`, `argparse`, `os.environ`, `os.getenv`
or `input()`; the import block in `10_pep8_code_style.py` lines 110-119 sits
inside a printed string literal, and `study_guide.py` imports `os` and `sys`
without using either. -/
def scriptInputProfiles : List ScriptInputProfile :=
  [⟨"study_guide.py", []⟩,
   ⟨"basic/01_syntax_indentation.py", []⟩,
   ⟨"basic/02_data_types.py", []⟩,
   ⟨"basic/03_operators.py", []⟩,
   ⟨"basic/04_control_flow.py", []⟩,
   ⟨"basic/05_functions_scope.py", []⟩,
   ⟨"basic/06_lists_dictionaries.py", []⟩,
   ⟨"basic/07_strings_formatting.py", [.clock]⟩,
   ⟨"basic/08_file_io.py", [.workingDirectory]⟩,
   ⟨"intermediate/09_packaging_venv.py",
     [.pythonEnvironment, .workingDirectory]⟩,
   ⟨"intermediate/10_pep8_code_style.py", []⟩,
   ⟨"intermediate/11_oop_fundamentals.py", []⟩,
   ⟨"advanced/12_oop_principles.py", []⟩,
   ⟨"advanced/13_magic_methods.py", [.workingDirectory]⟩,
   ⟨"advanced/14_generators_iteration.py",
     [.workingDirectory, .pythonEnvironment]⟩,
   ⟨"advanced/15_regular_expressions.py", []⟩,
   ⟨"advanced/16_async_io.py", [.randomness, .clock, .workingDirectory]⟩,
   ⟨"practice/practice_questions.py",
     [.randomness, .clock, .workingDirectory]⟩]

/-- Fuel-instrumented embedding of the loop of `fibonacci_generator`
(`practice_questions.py` lines 166-171): `a, b = 0, 1`, then
`while a <= max_value: yield a; a, b = b, a + b`.  Each recursive call is one
loop iteration; `none` means the fuel ran out with the loop still running, so
`some` results certify termination within the given fuel. -/
def fibGenAux : Nat → ℤ → ℤ → ℤ → Option (List ℤ)
  | 0, a, _b, max_value => if a ≤ max_value then none else some []
  | fuel + 1, a, b, max_value =>
      if a ≤ max_value then
        (fibGenAux fuel b (a + b) max_value).map (fun l => a :: l)
      else some []

/-- `fibonacci_generator(max_value)` of `practice_questions.py` (lines
166-171), run to exhaustion (as `list(fibonacci_generator(...))` does at
lines 175 and 194).  The fuel `max_value.toNat + 2` is an upper bound on the
number of loop iterations, proved sufficient in the C10 theorem. -/
def fibonacci_generator (max_value : ℤ) : Option (List ℤ) :=
  fibGenAux (max_value.toNat + 2) 0 1 max_value

/-- C1, counterexample.  The claim quantifies over every amount, but
`deposit(-5)` on the practice-script account raises and leaves the balance at
1000 rather than increasing it by the (negative) amount to 995.  The same
guard exists in all three deposit implementations. -/
theorem c1_deposit_counterexample :
    ¬ ((practiceDemoAccount.deposit (-5)).2.balance
        = practiceDemoAccount.balance + (-5)) := by
  norm_num [PracticeAccount.deposit, practiceDemoAccount]

/-- C1, amended: for every positive amount, `deposit(amount)` increases the
account's balance field by exactly that amount, in all four `BankAccount`
classes (practice script, OOP-fundamentals script, OOP-principles script,
PEP-8 script); every non-positive amount is rejected — by raising
`ValueError("Deposit amount must be positive")` in the practice, encapsulation
and PEP-8 classes, and by returning that message string in the
OOP-fundamentals class — leaving the account unchanged. -/
theorem c1_deposit_increases_balance (amount : ℚ) (hpos : 0 < amount) :
    (∀ acc : PracticeAccount,
        (acc.deposit amount).2.balance = acc.balance + amount) ∧
    (∀ acc : OopAccount,
        (acc.deposit amount).2.balance = acc.balance + amount) ∧
    (∀ acc : EncapAccount,
        (acc.deposit amount).2.balance = acc.balance + amount) ∧
    (∀ acc : Pep8Account,
        (acc.deposit amount).2.balance = acc.balance + amount) ∧
    (∀ (acc : PracticeAccount) (q : ℚ), q ≤ 0 →
        acc.deposit q = (.raises "Deposit amount must be positive", acc)) ∧
    (∀ (acc : OopAccount) (q : ℚ), q ≤ 0 →
        acc.deposit q = (.depositRejectedNonPositive, acc)) ∧
    (∀ (acc : EncapAccount) (q : ℚ), q ≤ 0 →
        acc.deposit q = (.raises "Deposit amount must be positive", acc)) ∧
    (∀ (acc : Pep8Account) (q : ℚ), q ≤ 0 →
        acc.deposit q = (.raises "Deposit amount must be positive", acc)) := by
  have hnle : ¬ amount ≤ 0 := not_le.mpr hpos
  refine ⟨fun acc => ?_, fun acc => ?_, fun acc => ?_, fun acc => ?_,
    fun acc q hq => ?_, fun acc q hq => ?_, fun acc q hq => ?_,
    fun acc q hq => ?_⟩ <;>
    simp [PracticeAccount.deposit, OopAccount.deposit, EncapAccount.deposit,
      Pep8Account.deposit, hnle, *]

/-- C1, witness: depositing 5 on concrete demo accounts raises the balance
from 1000 (resp. 500) by exactly 5 in each class, while depositing -3 or 0 is
rejected with the stated mechanism and leaves the account unchanged. -/
theorem c1_deposit_increases_balance_witness :
    (practiceDemoAccount.deposit 5).2.balance = practiceDemoAccount.balance + 5 ∧
    (oopDemoAccount.deposit 5).2.balance = oopDemoAccount.balance + 5 ∧
    (encapDemoAccount.deposit 5).2.balance = encapDemoAccount.balance + 5 ∧
    (pep8DemoAccount.deposit 5).2.balance = pep8DemoAccount.balance + 5 ∧
    practiceDemoAccount.deposit (-3)
      = (.raises "Deposit amount must be positive", practiceDemoAccount) ∧
    oopDemoAccount.deposit 0 = (.depositRejectedNonPositive, oopDemoAccount) ∧
    encapDemoAccount.deposit (-3)
      = (.raises "Deposit amount must be positive", encapDemoAccount) ∧
    pep8DemoAccount.deposit 0
      = (.raises "Deposit amount must be positive", pep8DemoAccount) :=
  ⟨(c1_deposit_increases_balance 5 (by norm_num)).1 practiceDemoAccount,
   (c1_deposit_increases_balance 5 (by norm_num)).2.1 oopDemoAccount,
   (c1_deposit_increases_balance 5 (by norm_num)).2.2.1 encapDemoAccount,
   (c1_deposit_increases_balance 5 (by norm_num)).2.2.2.1 pep8DemoAccount,
   (c1_deposit_increases_balance 5 (by norm_num)).2.2.2.2.1
     practiceDemoAccount (-3) (by norm_num),
   (c1_deposit_increases_balance 5 (by norm_num)).2.2.2.2.2.1
     oopDemoAccount 0 (by norm_num),
   (c1_deposit_increases_balance 5 (by norm_num)).2.2.2.2.2.2.1
     encapDemoAccount (-3) (by norm_num),
   (c1_deposit_increases_balance 5 (by norm_num)).2.2.2.2.2.2.2
     pep8DemoAccount 0 (by norm_num)⟩

/-- C2, counterexample.  A withdrawal with an invalid PIN on the
encapsulation-script account is signalled by a normal return of the string
"Invalid PIN" (which the demo prints), not by raising an exception: the call
result is `returns`, not `raises`, and the account state is unchanged. -/
theorem c2_invalid_pin_counterexample :
    (encapDemoAccount.withdraw 100 "0000").1 = .returns .invalidPin ∧
    (CallResult.isRaises (encapDemoAccount.withdraw 100 "0000").1) = false ∧
    (encapDemoAccount.withdraw 100 "0000").2 = encapDemoAccount := by
  refine ⟨?_, ?_, ?_⟩ <;>
    simp [EncapAccount.withdraw, encapDemoAccount, EncapAccount.init,
      CallResult.isRaises]

/-- C2, amended: an invalid-PIN withdrawal is signalled by returning the
message "Invalid PIN", and an insufficient-funds withdrawal by returning a
message in the OOP scripts or by raising `ValueError("Insufficient funds")`
in the practice script; in every case the balance (indeed the whole account
state) is unchanged. -/
theorem c2_withdraw_rejection (amount : ℚ) (pin : String) :
    (∀ acc : EncapAccount, pin ≠ acc.pin →
        acc.withdraw amount pin = (.returns .invalidPin, acc)) ∧
    (∀ acc : EncapAccount, 0 < amount → acc.balance < amount →
        acc.withdraw amount acc.pin = (.returns .insufficientFunds, acc)) ∧
    (∀ acc : PracticeAccount, 0 < amount → acc.balance < amount →
        acc.withdraw amount = (.raises "Insufficient funds", acc)) ∧
    (∀ acc : OopAccount, 0 < amount → acc.balance < amount →
        acc.withdraw amount = (.insufficientFunds, acc)) := by
  refine ⟨fun acc hpin => ?_, fun acc hpos hover => ?_,
    fun acc hpos hover => ?_, fun acc hpos hover => ?_⟩
  · simp [EncapAccount.withdraw, hpin]
  · simp [EncapAccount.withdraw, not_le.mpr hpos, hover]
  · simp [PracticeAccount.withdraw, not_le.mpr hpos, hover]
  · simp [OopAccount.withdraw, not_le.mpr hpos, hover]

/-- C2, witness: concrete rejected withdrawals on the demo accounts — wrong
PIN "0000", and an over-balance withdrawal of 2000 against a balance of
1000 — leave the state unchanged and are signalled as the theorem states. -/
theorem c2_withdraw_rejection_witness :
    encapDemoAccount.withdraw 100 "0000" = (.returns .invalidPin, encapDemoAccount) ∧
    encapDemoAccount.withdraw 2000 encapDemoAccount.pin
      = (.returns .insufficientFunds, encapDemoAccount) ∧
    practiceDemoAccount.withdraw 2000
      = (.raises "Insufficient funds", practiceDemoAccount) :=
  ⟨(c2_withdraw_rejection 100 "0000").1 encapDemoAccount (by decide),
   (c2_withdraw_rejection 2000 encapDemoAccount.pin).2.1 encapDemoAccount
     (by norm_num) (by norm_num [encapDemoAccount, EncapAccount.init]),
   (c2_withdraw_rejection 2000 "").2.2.1 practiceDemoAccount
     (by norm_num) (by norm_num [practiceDemoAccount])⟩

/-- Helper: one method call on the practice-script account preserves a
nonnegative balance (rejected calls leave the state alone; an accepted
withdrawal was checked against the balance). -/
theorem practice_applyOp_balance_nonneg (acc : PracticeAccount)
    (op : AccountOp) (h : 0 ≤ acc.balance) : 0 ≤ (acc.applyOp op).balance := by
  cases op with
  | deposit q =>
      by_cases hq : q ≤ 0
      · simpa [PracticeAccount.applyOp, PracticeAccount.deposit, hq] using h
      · have hq' : 0 < q := not_le.mp hq
        simp [PracticeAccount.applyOp, PracticeAccount.deposit, hq]
        positivity
  | withdraw q =>
      by_cases hq : q ≤ 0
      · simpa [PracticeAccount.applyOp, PracticeAccount.withdraw, hq] using h
      · by_cases hover : q > acc.balance
        · simpa [PracticeAccount.applyOp, PracticeAccount.withdraw, hq, hover]
            using h
        · have hle : q ≤ acc.balance := not_lt.mp hover
          simp [PracticeAccount.applyOp, PracticeAccount.withdraw, hq, hover]
          linarith

/-- Helper: one method call on the OOP-fundamentals account preserves a
nonnegative balance. -/
theorem oop_applyOp_balance_nonneg (acc : OopAccount)
    (op : AccountOp) (h : 0 ≤ acc.balance) : 0 ≤ (acc.applyOp op).balance := by
  cases op with
  | deposit q =>
      by_cases hq : q ≤ 0
      · simpa [OopAccount.applyOp, OopAccount.deposit, hq] using h
      · have hq' : 0 < q := not_le.mp hq
        simp [OopAccount.applyOp, OopAccount.deposit, hq]
        positivity
  | withdraw q =>
      by_cases hq : q ≤ 0
      · simpa [OopAccount.applyOp, OopAccount.withdraw, hq] using h
      · by_cases hover : q > acc.balance
        · simpa [OopAccount.applyOp, OopAccount.withdraw, hq, hover] using h
        · have hle : q ≤ acc.balance := not_lt.mp hover
          simp [OopAccount.applyOp, OopAccount.withdraw, hq, hover]
          linarith

/-- Helper: the invariant extends to sequences of calls (practice script). -/
theorem practice_runOps_balance_nonneg (acc : PracticeAccount)
    (ops : List AccountOp) (h : 0 ≤ acc.balance) :
    0 ≤ (acc.runOps ops).balance := by
  induction ops generalizing acc with
  | nil => simpa [PracticeAccount.runOps] using h
  | cons op rest ih =>
      have hstep := practice_applyOp_balance_nonneg acc op h
      simpa [PracticeAccount.runOps] using ih (acc.applyOp op) hstep

/-- Helper: the invariant extends to sequences of calls (OOP fundamentals). -/
theorem oop_runOps_balance_nonneg (acc : OopAccount)
    (ops : List AccountOp) (h : 0 ≤ acc.balance) :
    0 ≤ (acc.runOps ops).balance := by
  induction ops generalizing acc with
  | nil => simpa [OopAccount.runOps] using h
  | cons op rest ih =>
      have hstep := oop_applyOp_balance_nonneg acc op h
      simpa [OopAccount.runOps] using ih (acc.applyOp op) hstep

/-- C9: starting from a nonnegative balance, the balance of the practice-script
and OOP-fundamentals bank accounts stays nonnegative under any sequence of
`deposit`/`withdraw` calls; `withdraw` rejects amounts exceeding the balance,
both methods reject non-positive amounts, and every rejected call leaves the
account (in particular its balance) unchanged. -/
theorem c9_balance_invariant :
    (∀ (acc : PracticeAccount) (ops : List AccountOp),
        0 ≤ acc.balance → 0 ≤ (acc.runOps ops).balance) ∧
    (∀ (acc : OopAccount) (ops : List AccountOp),
        0 ≤ acc.balance → 0 ≤ (acc.runOps ops).balance) ∧
    (∀ (acc : PracticeAccount) (q : ℚ), q ≤ 0 →
        acc.deposit q = (.raises "Deposit amount must be positive", acc) ∧
        acc.withdraw q = (.raises "Withdrawal amount must be positive", acc)) ∧
    (∀ (acc : OopAccount) (q : ℚ), q ≤ 0 →
        acc.deposit q = (.depositRejectedNonPositive, acc) ∧
        acc.withdraw q = (.withdrawRejectedNonPositive, acc)) ∧
    (∀ (acc : PracticeAccount) (q : ℚ), 0 < q → acc.balance < q →
        acc.withdraw q = (.raises "Insufficient funds", acc)) ∧
    (∀ (acc : OopAccount) (q : ℚ), 0 < q → acc.balance < q →
        acc.withdraw q = (.insufficientFunds, acc)) := by
  refine ⟨fun acc ops h => practice_runOps_balance_nonneg acc ops h,
    fun acc ops h => oop_runOps_balance_nonneg acc ops h,
    fun acc q hq => ?_, fun acc q hq => ?_,
    fun acc q hq hover => ?_, fun acc q hq hover => ?_⟩
  · exact ⟨by simp [PracticeAccount.deposit, hq],
      by simp [PracticeAccount.withdraw, hq]⟩
  · exact ⟨by simp [OopAccount.deposit, hq], by simp [OopAccount.withdraw, hq]⟩
  · simp [PracticeAccount.withdraw, not_le.mpr hq, hover]
  · simp [OopAccount.withdraw, not_le.mpr hq, hover]

/-- C9, witness: a concrete mixed sequence (one accepted deposit, an
over-balance withdrawal, an accepted withdrawal, a negative deposit) keeps the
demo accounts' balances nonnegative, and concrete rejected calls leave the
accounts unchanged. -/
theorem c9_balance_invariant_witness :
    0 ≤ (practiceDemoAccount.runOps
      [.deposit 250, .withdraw 5000, .withdraw 100, .deposit (-3)]).balance ∧
    0 ≤ (oopDemoAccount.runOps
      [.deposit 300, .withdraw 5000, .withdraw 100, .deposit (-3)]).balance ∧
    practiceDemoAccount.deposit (-3)
      = (.raises "Deposit amount must be positive", practiceDemoAccount) ∧
    oopDemoAccount.withdraw 0
      = (.withdrawRejectedNonPositive, oopDemoAccount) ∧
    practiceDemoAccount.withdraw 5000
      = (.raises "Insufficient funds", practiceDemoAccount) ∧
    oopDemoAccount.withdraw 5000 = (.insufficientFunds, oopDemoAccount) :=
  ⟨c9_balance_invariant.1 practiceDemoAccount _ (by norm_num [practiceDemoAccount]),
   c9_balance_invariant.2.1 oopDemoAccount _ (by norm_num [oopDemoAccount]),
   (c9_balance_invariant.2.2.1 practiceDemoAccount (-3) (by norm_num)).1,
   (c9_balance_invariant.2.2.2.1 oopDemoAccount 0 (by norm_num)).2,
   c9_balance_invariant.2.2.2.2.1 practiceDemoAccount 5000 (by norm_num)
     (by norm_num [practiceDemoAccount]),
   c9_balance_invariant.2.2.2.2.2 oopDemoAccount 5000 (by norm_num)
     (by norm_num [oopDemoAccount])⟩

/-- C3 (code divergence): the packaging, practice and async-I/O scripts do
delete every path they created, but `08_file_io.py` does not — its
PermissionError demonstration creates `readonly.txt` in a writable working
directory, and the cleanup list at lines 204-210 omits it, so the file still
exists when the script exits, contradicting both the claim and the script's
own "Clean up created files" comment. -/
theorem c3_scratch_file_cleanup :
    runFsOps fileIoScriptOps [] = ["readonly.txt"] ∧
    runFsOps packagingScriptOps [] = [] ∧
    runFsOps practiceScriptOps [] = [] ∧
    runFsOps asyncIoScriptOps [] = [] := by
  refine ⟨?_, ?_, ?_, ?_⟩ <;> decide

/-- C4: when the input file exists (and is distinct from the output file),
`filter_error_logs` writes to the output file exactly the input lines
containing "ERROR" and returns their count; when the input file is missing,
it catches the `FileNotFoundError`, prints "File ... not found", returns 0
without raising, and leaves the file system unchanged (the output file is not
created, because the input is opened first). -/
theorem c4_filter_error_logs :
    (∀ (input_file output_file : String) (fs : FileSys) (lines : List String),
        input_file ≠ output_file →
        fs.lookup input_file = some lines →
        filter_error_logs input_file output_file fs =
          ⟨.returns (lines.filter containsERROR).length,
            fs.writeFile output_file (lines.filter containsERROR), []⟩ ∧
        (filter_error_logs input_file output_file fs).fs.lookup output_file
          = some (lines.filter containsERROR)) ∧
    (∀ (input_file output_file : String) (fs : FileSys),
        fs.lookup input_file = none →
        filter_error_logs input_file output_file fs =
          ⟨.returns 0, fs, ["File " ++ input_file ++ " not found"]⟩) := by
  constructor
  · intro inp out fs lines hne hlook
    refine ⟨by simp [filter_error_logs, hlook], ?_⟩
    simp [filter_error_logs, hlook, FileSys.writeFile, List.lookup]
  · intro inp out fs hlook
    simp [filter_error_logs, hlook]

/-- C4, witness: on the practice script's sample log, the call of line 96
returns 3 and errors.log holds exactly the three ERROR lines; on an empty file
system the call returns 0 and prints the not-found message. -/
theorem c4_filter_error_logs_witness :
    (filter_error_logs "log.txt" "errors.log" sampleFileSys).result
      = .returns 3 ∧
    (filter_error_logs "log.txt" "errors.log" sampleFileSys).fs.lookup
        "errors.log"
      = some ["2024-01-01 10:05:00 ERROR Database connection failed",
              "2024-01-01 10:07:00 ERROR Authentication failed for user john",
              "2024-01-01 10:15:00 ERROR File not found: config.xml"] ∧
    filter_error_logs "log.txt" "errors.log" []
      = ⟨.returns 0, [], ["File log.txt not found"]⟩ := by
  have h := c4_filter_error_logs.1 "log.txt" "errors.log" sampleFileSys
    sampleLogLines (by decide) (by decide)
  have h0 := c4_filter_error_logs.2 "log.txt" "errors.log" [] (by decide)
  refine ⟨?_, ?_, h0⟩
  · rw [h.1]
    decide
  · rw [h.2]
    decide

/-- C5: the sample package's Calculator returns a+b, a-b, a*b and a/b, raising
ValueError exactly when the divisor is zero, and greet(name) returns
"Hello, {name}!" with default name "World". -/
theorem c5_calculator_and_greet (a b : ℚ) :
    Calculator.add a b = a + b ∧
    Calculator.subtract a b = a - b ∧
    Calculator.multiply a b = a * b ∧
    Calculator.divide a b
      = (if b = 0 then .raises "Cannot divide by zero" else .returns (a / b)) ∧
    (Calculator.divide a b).isRaises = (b == 0) ∧
    (∀ name : String, greet (some name) = "Hello, " ++ name ++ "!") ∧
    greet none = "Hello, World!" := by
  refine ⟨rfl, rfl, rfl, rfl, ?_, fun name => rfl, rfl⟩
  by_cases hb : b = 0
  · subst hb
    simp [Calculator.divide, CallResult.isRaises]
  · simp [Calculator.divide, CallResult.isRaises, hb]

/-- C6, counterexample (negation of the claim): no try/except site in the
repository guards a division by zero or catches ZeroDivisionError, so no
script demonstrates division by zero by catching and printing the resulting
exception. -/
theorem c6_no_division_by_zero_demo :
    (exceptionSites.all
      fun s => !s.divByZeroInBody && s.catches != "ZeroDivisionError") = true := by
  decide

/-- C6, amended: division by zero appears only as a guard in the sample
package's Calculator.divide, which raises ValueError("Cannot divide by zero")
on a zero divisor; the packaging script never calls divide, and no script
catches or prints a division-by-zero exception. -/
theorem c6_divide_guard_only :
    Calculator.divide 10 0 = .raises "Cannot divide by zero" ∧
    "Calculator.divide" ∉ packagingDemoCalls ∧
    (exceptionSites.all fun s => s.catches != "ZeroDivisionError") = true := by
  refine ⟨by simp [Calculator.divide], by decide, by decide⟩

/-- C7, counterexample: not every simulated delay in the asynchronous-I/O
script is a fixed-duration sleep — `risky_task` and the web-scraping
`fetch_url` draw their durations from `random.uniform`. -/
theorem c7_not_all_delays_fixed :
    (asyncIoSleepSites.all fun s => s.delay.isFixed) = false := by
  decide

/-- C7, amended: every simulated delay is a sleep whose duration is either
fixed or drawn by `random.uniform` from a fixed range — exactly two sites
(`risky_task`, line 159, uniform on [0.5, 1.5]; `fetch_url` as called by the
web-scraping demo, lines 206/232, uniform on [0.5, 2.0]) are random, the rest
fixed — and `gather` collects the concurrently created tasks' results in
task-creation order. -/
theorem c7_delays_and_gather_order :
    gatherResults runAsyncTasksTasks
      = ["Async A done", "Async B done", "Async C done"] ∧
    asyncIoSleepSites[10]?
      = some ⟨"risky_task (line 159)", .uniformRandom (1/2) (3/2)⟩ ∧
    asyncIoSleepSites[11]?
      = some ⟨"fetch_url via web_scraping_demo (lines 206 and 232)",
          .uniformRandom (1/2) 2⟩ ∧
    (asyncIoSleepSites.filter fun s => !s.delay.isFixed).length = 2 := by
  refine ⟨rfl, rfl, rfl, by decide⟩

/-- C8, counterexample: the packaging script's observable output depends on
the environment — two runs with identical command lines, differing only in
what the `pip freeze` subprocess reports, print different text. -/
theorem c8_output_depends_on_environment :
    packagingEnvOutput []
        ⟨"/usr/bin/python3", "/repo", false, "Flask==2.3.2"⟩ ≠
      packagingEnvOutput [] ⟨"/usr/bin/python3", "/repo", false, ""⟩ := by
  decide

/-- C8, amended: no script reads the command line — the per-script
enumeration of reads of data outside the program text (all 18 scripts)
contains no command-line-argument read — so two runs differing only in argv
produce the same output; in particular the packaging script's
environment-sensitive output is a function of the environment alone,
unchanged under any argv.  The environment half of the claim fails, as the
counterexample shows. -/
theorem c8_argv_irrelevant :
    (scriptInputProfiles.all fun s =>
        s.reads.all fun i => i != ExternalInput.commandLineArgs) = true ∧
    scriptInputProfiles.length = 18 ∧
    (∀ (argv argv2 : List String) (env : PyEnv),
        packagingEnvOutput argv env = packagingEnvOutput argv2 env) :=
  ⟨by decide, by decide, fun _ _ _ => rfl⟩

/-- Helper: from the Fibonacci pair `(fib k, fib (k+1))` and enough fuel, the
generator loop yields `fib k, fib (k+1), ..., fib (k+n-1)` and stops, where
`n` is the cutoff with every earlier value at most `max_value` and
`fib (k+n)` beyond it. -/
theorem fibGenAux_spec (fuel : Nat) :
    ∀ (n k : Nat) (max_value : ℤ), n ≤ fuel →
      (∀ i, i < n → (Nat.fib (k + i) : ℤ) ≤ max_value) →
      max_value < (Nat.fib (k + n) : ℤ) →
      fibGenAux fuel (Nat.fib k) (Nat.fib (k + 1)) max_value
        = some ((List.range n).map (fun i => (Nat.fib (k + i) : ℤ))) := by
  induction fuel with
  | zero =>
      intro n k max_value hn hle hgt
      have hn0 : n = 0 := Nat.le_zero.mp hn
      subst hn0
      have hk : max_value < (Nat.fib k : ℤ) := by simpa using hgt
      simp [fibGenAux, not_le.mpr hk]
  | succ f ih =>
      intro n k max_value hn hle hgt
      cases n with
      | zero =>
          have hk : max_value < (Nat.fib k : ℤ) := by simpa using hgt
          simp [fibGenAux, not_le.mpr hk]
      | succ m =>
          have hk : (Nat.fib k : ℤ) ≤ max_value := by
            simpa using hle 0 (Nat.succ_pos m)
          have hle' : ∀ i, i < m → (Nat.fib (k + 1 + i) : ℤ) ≤ max_value := by
            intro i hi
            have h := hle (i + 1) (by omega)
            have harg : k + (i + 1) = k + 1 + i := by omega
            rwa [harg] at h
          have hgt' : max_value < (Nat.fib (k + 1 + m) : ℤ) := by
            have harg : k + (m + 1) = k + 1 + m := by omega
            rwa [harg] at hgt
          have hrec := ih m (k + 1) max_value (Nat.succ_le_succ_iff.mp hn)
            hle' hgt'
          have hpair : (Nat.fib k : ℤ) + (Nat.fib (k + 1) : ℤ)
              = (Nat.fib (k + 1 + 1) : ℤ) := by
            have : Nat.fib (k + 2) = Nat.fib k + Nat.fib (k + 1) :=
              Nat.fib_add_two
            push_cast [show k + 1 + 1 = k + 2 from rfl, this]
            ring
          simp only [fibGenAux, if_pos hk, hpair, hrec, Option.map_some']
          congr 1
          rw [List.range_succ_eq_map, List.map_cons, List.map_map]
          congr 1
          refine List.map_congr_left fun a _ => ?_
          simp only [Function.comp_apply]
          norm_cast
          congr 1
          omega

/-- C10: for every integer max_value, the generator loop terminates (the
fuel-instrumented run returns `some`), and the yielded list is exactly the
Fibonacci numbers 0, 1, 1, 2, 3, ... up to and including max_value, in
order — formally, `fib 0, ..., fib (n-1)` for the cutoff index n — and the
list is empty when max_value is negative. -/
theorem c10_fibonacci_generator (max_value : ℤ) :
    (fibonacci_generator max_value).isSome = true ∧
    (∀ n : Nat, (∀ i, i < n → (Nat.fib i : ℤ) ≤ max_value) →
        max_value < (Nat.fib n : ℤ) →
        fibonacci_generator max_value
          = some ((List.range n).map (fun i => (Nat.fib i : ℤ)))) ∧
    (max_value < 0 → fibonacci_generator max_value = some []) := by
  have key : ∀ n : Nat, (∀ i, i < n → (Nat.fib i : ℤ) ≤ max_value) →
      max_value < (Nat.fib n : ℤ) →
      fibonacci_generator max_value
        = some ((List.range n).map (fun i => (Nat.fib i : ℤ))) := by
    intro n hle hgt
    have hn : n ≤ max_value.toNat + 2 := by
      cases n with
      | zero => omega
      | succ m =>
          have h0 : (0 : ℤ) ≤ max_value := by
            simpa using hle 0 (Nat.succ_pos m)
          have hm : (Nat.fib m : ℤ) ≤ max_value := hle m (Nat.lt_succ_self m)
          have hmle : (m : ℤ) ≤ (Nat.fib m : ℤ) + 1 := by
            exact_mod_cast Nat.le_fib_add_one m
          have hcast : (max_value.toNat : ℤ) = max_value :=
            Int.toNat_of_nonneg h0
          have hmv : (m : ℤ) ≤ max_value + 1 := by linarith
          omega
    have hle0 : ∀ i, i < n → (Nat.fib (0 + i) : ℤ) ≤ max_value := by
      intro i hi
      simpa using hle i hi
    have hgt0 : max_value < (Nat.fib (0 + n) : ℤ) := by simpa using hgt
    have hs := fibGenAux_spec (max_value.toNat + 2) n 0 max_value hn hle0 hgt0
    simp only [Nat.zero_add, Nat.fib_zero, Nat.fib_one, Nat.cast_zero,
      Nat.cast_one] at hs
    simpa [fibonacci_generator] using hs
  refine ⟨?_, key, ?_⟩
  · have hex : ∃ n, max_value < (Nat.fib n : ℤ) := by
      refine ⟨max_value.toNat + 2, ?_⟩
      have h1 : (max_value.toNat + 2 : ℕ) ≤ Nat.fib (max_value.toNat + 2) + 1 :=
        Nat.le_fib_add_one _
      have h2 : max_value ≤ (max_value.toNat : ℤ) := Int.self_le_toNat max_value
      have h3 : ((max_value.toNat + 2 : ℕ) : ℤ)
          ≤ (Nat.fib (max_value.toNat + 2) : ℤ) + 1 := by exact_mod_cast h1
      push_cast at h3
      linarith
    have hn := Nat.find_spec hex
    have hmin : ∀ i, i < Nat.find hex → (Nat.fib i : ℤ) ≤ max_value :=
      fun i hi => not_lt.mp (Nat.find_min hex hi)
    rw [key (Nat.find hex) hmin hn]
    rfl
  · intro hneg
    have h := key 0 (by intro i hi; exact absurd hi (Nat.not_lt_zero i))
      (by simpa using hneg)
    simpa using h

/-- C10, witness: for max_value = 100 the generator yields the twelve
Fibonacci numbers up to 100 (matching the script's printed list at line 176),
and for max_value = -1 it yields nothing. -/
theorem c10_fibonacci_generator_witness :
    (fibonacci_generator 100).isSome = true ∧
    fibonacci_generator 100 = some [0, 1, 1, 2, 3, 5, 8, 13, 21, 34, 55, 89] ∧
    fibonacci_generator (-1) = some [] :=
  ⟨(c10_fibonacci_generator 100).1,
   by
     have h := (c10_fibonacci_generator 100).2.1 12 (by decide) (by decide)
     rw [h]
     decide,
   (c10_fibonacci_generator (-1)).2.2 (by decide)⟩
